import Mathlib

/-!
Verification development for the gomu multi-marketplace trading SDK.

Shallow embedding conventions:
- TypeScript `bigint` values and decimal-string amounts are modelled as `Int`.
- A JavaScript numeric value that may be `NaN` (obtained e.g. from
  `new BigNumber(undefined)`) is modelled as `Option Int`, with `none`
  standing for `NaN`; all `BigNumber` comparisons with `NaN` are `false`
  and arithmetic with `NaN` yields `NaN`, which the `js*` helpers mirror.
- A thrown JavaScript value is modelled by `JsThrown`: whether it is an
  `Error` instance, its `message` property (when present) and its string
  coercion `String(value)`.
- Fallible TypeScript functions are modelled with `Except`/`Option`.
-/

/-! ### Asset model (packages/sdk/src/types.ts) -/

/-- Tag of the `Asset` tagged union: ERC20, ERC721, ERC1155 or Unknown. -/
inductive AssetType where
  | erc20
  | erc721
  | erc1155
  | unknownType
deriving DecidableEq, Repr

/-- An asset. The TypeScript side is a union of `Erc20Asset` (address, amount),
`Erc721Asset` (address, tokenId), `Erc1155Asset` (address, tokenId, amount) and
`UnknownAsset`; we flatten the union into one record with optional fields, the
`type` tag deciding which fields are meaningful, exactly as `AnyAsset` does in
the source. -/
structure Asset where
  contractAddress : String
  tokenId : Option String := none
  type : AssetType
  amount : Option Int := none
deriving DecidableEq, Repr

/-- Whether an asset carries the ERC20 tag. -/
def Asset.isErc20 (a : Asset) : Bool :=
  a.type == AssetType.erc20

/-! ### Shared validators (packages/sdk/src/marketplaces/validators.ts)

Each validator is modelled as returning `some message` for the thrown
`Error`'s message, `none` when the assertion passes. -/

/-- assertAssetsIsNotEmpty: throws when the asset list is empty. -/
def assertAssetsIsNotEmpty (assets : List Asset) (pfx : String) : Option String :=
  if assets.length = 0 then some (pfx ++ " assets cannot be empty") else none

/-- assertAssetsIsNotBundled: throws when more than one asset is given. -/
def assertAssetsIsNotBundled (assets : List Asset) : Option String :=
  if assets.length > 1 then some "bundled assets are not supported" else none

/-- assertAssetsIsNotErc20AndErc20: throws when both sides are ERC20. -/
def assertAssetsIsNotErc20AndErc20 (makerAsset takerAsset : Asset) : Option String :=
  if makerAsset.type = AssetType.erc20 ∧ takerAsset.type = AssetType.erc20 then
    some "ERC20 <-> ERC20 is not supported"
  else none

/-- assertAssetsIsNotErc721Erc1155AndErc721Erc115: throws when both sides are
non-fungible (ERC721 or ERC1155). The message reproduces the source string
verbatim, including its `ERC712` typo. -/
def assertAssetsIsNotErc721Erc1155AndErc721Erc115 (makerAsset takerAsset : Asset) :
    Option String :=
  if (makerAsset.type = AssetType.erc721 ∨ makerAsset.type = AssetType.erc1155) ∧
      (takerAsset.type = AssetType.erc721 ∨ takerAsset.type = AssetType.erc1155) then
    some "ERC712/ERC1155 <-> ERC712/ERC1155 is not supported"
  else none

/-- The validator sequence run at the top of every adapter `makeOrder`
(Trader.makeOrder, Opensea.makeOrder): empty maker, empty taker, bundled
maker, bundled taker, then the pair checks on the first asset of each side,
in source order. Returns the message of the first failing assertion. -/
def validateMakeOrderAssets (makerAssets takerAssets : List Asset) : Option String :=
  match assertAssetsIsNotEmpty makerAssets "maker" with
  | some e => some e
  | none =>
    match assertAssetsIsNotEmpty takerAssets "taker" with
    | some e => some e
    | none =>
      match assertAssetsIsNotBundled makerAssets with
      | some e => some e
      | none =>
        match assertAssetsIsNotBundled takerAssets with
        | some e => some e
        | none =>
          -- both lists are non-empty here, so indexing [0] is safe
          match makerAssets, takerAssets with
          | makerAsset :: _, takerAsset :: _ =>
            match assertAssetsIsNotErc20AndErc20 makerAsset takerAsset with
            | some e => some e
            | none => assertAssetsIsNotErc721Erc1155AndErc721Erc115 makerAsset takerAsset
          | _, _ => none

/-! ### BigNumber arithmetic helpers

`JsNum` models a BigNumber value that may be `NaN` (`none`). -/

/-- A BigNumber value: `none` models `NaN` (e.g. `new BigNumber(undefined)`). -/
abbrev JsNum := Option Int

/-- BigNumber `x.gte(y)`: any comparison involving `NaN` is `false`. -/
def jsGe (x y : JsNum) : Bool :=
  match x, y with
  | some a, some b => a ≥ b
  | _, _ => false

/-- BigNumber `x.plus(y)`: `NaN` absorbs. -/
def jsAdd (x y : JsNum) : JsNum :=
  match x, y with
  | some a, some b => some (a + b)
  | _, _ => none

/-- BigNumber `x.minus(y)`: `NaN` absorbs. -/
def jsSub (x y : JsNum) : JsNum :=
  match x, y with
  | some a, some b => some (a - b)
  | _, _ => none

/-- Round `q / d` (with `d > 0`) to the nearest integer, ties away from zero
on the non-negative side: this is `BigNumber.toFixed(0)` with the default
`ROUND_HALF_UP` mode for non-negative values. -/
def roundHalfUpNat (q d : Nat) : Nat :=
  (2 * q + d) / (2 * d)

/-- `ROUND_HALF_UP` for integers: ties round away from zero. -/
def roundHalfUpInt (q : Int) (d : Nat) : Int :=
  if q < 0 then -(roundHalfUpNat q.natAbs d : Nat) else (roundHalfUpNat q.toNat d : Nat)

/-- `new BigNumber(amount).times(bp).div(10000).toFixed(0)` (Trader.makeOrder
fee computation); `NaN` propagates. -/
def jsTimesBpDivBasis (amount : JsNum) (bp : Int) : JsNum :=
  match amount with
  | some a => some (roundHalfUpInt (a * bp) 10000)
  | none => none

/-! ### Fee calculator (unnamed/part_014, `calculateFees`) -/

/-- A caller-supplied fee: either a flat amount or basis points
(types.ts `Fee = FlatAmountFee | BasisPointsFee`). -/
inductive Fee where
  | flatAmount (recipient : String) (amount : Int)
  | basisPoints (recipient : String) (basisPoints : Int)
deriving DecidableEq, Repr

/-- A computed fee with a concrete flat amount (types.ts `BigNumberFee`).
The source keeps the whole spread `{...fee, amount}`; only `recipient` and the
computed `amount` are observable downstream, so we keep those. -/
structure BigNumberFee where
  recipient : String
  amount : JsNum
deriving DecidableEq, Repr

/-- Errors thrown by `calculateFees`. The first three correspond to the
explicit `throw new Error(...)` sites; `undefinedFeeTypeError` is the
`TypeError` raised by evaluating `"amount" in fee` when `fee` is `undefined`,
which happens at loop index `i = fees.length` because the loop bound is
`i <= fees.length`. -/
inductive FeeCalcError where
  | feeAmountGteAmount
  | basisPointsGte100Percent
  | totalFeesGteAmount
  | undefinedFeeTypeError
deriving DecidableEq, Repr

/-- One iteration of the `calculateFees` loop body on a defined fee entry:
state is the `(flatAmountFees, totalFeesAmount)` pair. An entry whose
`amount` (resp. `basisPoints`) is not strictly positive falls through both
`if` branches and leaves the state unchanged. -/
def processFee (amount : JsNum) (st : List BigNumberFee × JsNum) (fee : Fee) :
    Except FeeCalcError (List BigNumberFee × JsNum) :=
  match fee with
  | Fee.flatAmount recipient a =>
    if a > 0 then
      if jsGe (some a) amount then
        Except.error FeeCalcError.feeAmountGteAmount
      else
        Except.ok (st.1 ++ [⟨recipient, some a⟩], jsAdd st.2 (some a))
    else
      Except.ok st
  | Fee.basisPoints recipient bp =>
    if bp > 0 then
      if bp ≥ 10000 then
        Except.error FeeCalcError.basisPointsGte100Percent
      else
        let feeAmount := jsTimesBpDivBasis amount bp
        Except.ok (st.1 ++ [⟨recipient, feeAmount⟩], jsAdd st.2 feeAmount)
    else
      Except.ok st

/-- `calculateFees(fees, amount)` from unnamed/part_014 lines 270-321.
When `fees` is `undefined` or empty the loop is skipped and
`([], 0)` is returned. Otherwise the loop `for (let i = 0; i <= fees.length; i++)`
processes every entry and then, at `i = fees.length`, reads
`fees[fees.length] = undefined` and throws a `TypeError` from
`"amount" in fee`; the final `totalFeesAmount >= amount` check at source line
315 is therefore unreachable for non-empty fee lists. -/
def calculateFees (fees : Option (List Fee)) (amount : JsNum) :
    Except FeeCalcError (List BigNumberFee × JsNum) :=
  match fees with
  | none => Except.ok ([], some 0)
  | some [] => Except.ok ([], some 0)
  | some fs => do
    let _st ← fs.foldlM (processFee amount) ([], some 0)
    Except.error FeeCalcError.undefinedFeeTypeError

/-- True when a fee entry's magnitude is not strictly positive, i.e. the entry
falls through both branches of the `calculateFees` loop body. -/
def feeIsNonPositive (fee : Fee) : Bool :=
  match fee with
  | Fee.flatAmount _ a => a ≤ 0
  | Fee.basisPoints _ bp => bp ≤ 0

/-! ### Thrown values and the facade's error formatting (unnamed/part_010) -/

/-- A thrown JavaScript value, as observed by a `catch` block: whether it is an
`instanceof Error`, its `message` property when it has one (an `Error`
instance always does), and its string coercion `String(value)`. -/
structure JsThrown where
  isErrorInstance : Bool
  messageProp : Option String
  stringCoercion : String
deriving DecidableEq, Repr

/-- A thrown `new Error(msg)` value. -/
def JsThrown.jsError (msg : String) : JsThrown :=
  ⟨true, some msg, "Error: " ++ msg⟩

/-- The facade's catch-clause formatting, part_010 line 127:
`err instanceof Error ? err.message : String(err)`. The result is a plain
string; the thrown value itself is not kept. -/
def formatCaughtError (e : JsThrown) : String :=
  if e.isErrorInstance then e.messageProp.getD "" else e.stringCoercion

/-! ### The Gomu facade (unnamed/part_010) -/

/-- Marketplace keys of the facade registry (the `Marketplaces` interface of
part_010 has exactly the `opensea` and `trader` slots). -/
inductive MarketplaceName where
  | opensea
  | trader
deriving DecidableEq, Repr

/-- String form of a marketplace key, as it appears in `Object.entries`. -/
def MarketplaceName.toNameString : MarketplaceName → String
  | MarketplaceName.opensea => "opensea"
  | MarketplaceName.trader => "trader"

/-- Per-marketplace configuration (types, part_006): `{ trader: { fees } }`. -/
structure TraderMarketplaceConfig where
  fees : List Fee
deriving DecidableEq, Repr

/-- marketplacesConfig payload of `MakeOrderParams`. -/
structure MarketplacesConfig where
  trader : TraderMarketplaceConfig
deriving DecidableEq, Repr

/-- The parameters an adapter's `makeOrder` receives: the facade strips the
`marketplaces` key (`{ marketplaces, ...params }`) and forwards the rest.
`expirationTime` (a `Date`) is modelled as epoch seconds. -/
structure AdapterMakeOrderParams where
  makerAssets : List Asset
  takerAssets : List Asset
  taker : Option String := none
  expirationTime : Option Int := none
  marketplacesConfig : Option MarketplacesConfig := none
deriving DecidableEq, Repr

/-- The facade's `MakeOrderParams`: adapter parameters plus the optional
marketplace selection. -/
structure MakeOrderParams extends AdapterMakeOrderParams where
  marketplaces : Option (List MarketplaceName) := none

/-- `GetOrdersParams` (types.ts): optional maker/taker address and asset. -/
structure GetOrdersParams where
  maker : Option String := none
  makerAsset : Option Asset := none
  taker : Option String := none
  takerAsset : Option Asset := none
deriving DecidableEq, Repr

/-- A registered marketplace adapter, abstracted by the outcome of each of its
operations: `O` is the marketplace-native order type, `N` the normalized order
type, `R` the take/cancel response type. A call either resolves (`Except.ok`)
or rejects with a thrown value (`Except.error`). `takeOrderResult` and
`cancelOrderResult` receive an `Option O` because the facade forwards
`order.marketplaceOrder` without checking it is present. -/
structure Adapter (O N R : Type) where
  makeOrderResult : AdapterMakeOrderParams → Except JsThrown O
  getNormalizedOrder : O → N
  getOrdersResult : Option GetOrdersParams → Except JsThrown (List O)
  takeOrderResult : Option O → Except JsThrown R
  cancelOrderResult : Option O → Except JsThrown R

/-- The facade's `marketplaces` registry: one optional adapter per slot,
populated at construction. -/
structure Registry (O N R : Type) where
  opensea : Option (Adapter O N R) := none
  trader : Option (Adapter O N R) := none

/-- `Object.entries(this.marketplaces)` in insertion order: the constructor
assigns `opensea` first, then `trader`; unassigned slots produce no entry. -/
def registryEntries {O N R : Type} (g : Registry O N R) :
    List (MarketplaceName × Adapter O N R) :=
  (match g.opensea with
   | some a => [(MarketplaceName.opensea, a)]
   | none => []) ++
  (match g.trader with
   | some a => [(MarketplaceName.trader, a)]
   | none => [])

/-- Registry lookup `this.marketplaces[marketplaceName]`. -/
def lookupMarketplace {O N R : Type} (g : Registry O N R) :
    MarketplaceName → Option (Adapter O N R)
  | MarketplaceName.opensea => g.opensea
  | MarketplaceName.trader => g.trader

/-- The `makeOrder` entry filter, part_010 lines 103-112:
`if (marketplaces?.length && !marketplaces.includes(name)) return false;`
so an entry is kept unless a non-empty selection excludes its name. -/
def isMarketplaceSelected (sel : Option (List MarketplaceName)) (m : MarketplaceName) :
    Bool :=
  match sel with
  | none => true
  | some l => if l.isEmpty then true else l.contains m

/-- The registry entries that survive the selection filter. -/
def selectedEntries {O N R : Type} (g : Registry O N R)
    (sel : Option (List MarketplaceName)) : List (MarketplaceName × Adapter O N R) :=
  (registryEntries g).filter fun e => isMarketplaceSelected sel e.1

/-- One element of the facade `makeOrder` result (types, part_006
`MakeOrderResponse = Order | MakeOrderError`): a success carries the
marketplace order and its normalized form; a failure carries the formatted
error string. Both are tagged with the marketplace name. -/
inductive MakeOrderResponse (O N : Type) where
  | success (marketplaceName : MarketplaceName) (marketplaceOrder : O)
      (normalizedOrder : N)
  | failure (marketplaceName : MarketplaceName) (error : String)
deriving DecidableEq, Repr

/-- The marketplace tag of a response entry. -/
def MakeOrderResponse.marketplaceName {O N : Type} :
    MakeOrderResponse O N → MarketplaceName
  | MakeOrderResponse.success m _ _ => m
  | MakeOrderResponse.failure m _ => m

/-- The `try`/`catch` body mapped over each selected entry in
`Gomu.makeOrder` (part_010 lines 113-130). -/
def makeOrderResponseFor {O N R : Type} (p : MakeOrderParams)
    (e : MarketplaceName × Adapter O N R) : MakeOrderResponse O N :=
  match e.2.makeOrderResult p.toAdapterMakeOrderParams with
  | Except.ok o => MakeOrderResponse.success e.1 o (e.2.getNormalizedOrder o)
  | Except.error err => MakeOrderResponse.failure e.1 (formatCaughtError err)

/-- `Gomu.makeOrder` (part_010 lines 97-132): filter the registry entries by
the optional selection, then map each remaining adapter through the
`try`/`catch` body; `Promise.all` of never-rejecting promises is modelled by
the function being total. -/
def gomuMakeOrder {O N R : Type} (g : Registry O N R) (p : MakeOrderParams) :
    List (MakeOrderResponse O N) :=
  (selectedEntries g p.marketplaces).map (makeOrderResponseFor p)

/-- The first response entry tagged with a given marketplace name, if any. -/
def findResponse {O N : Type} (rs : List (MakeOrderResponse O N))
    (m : MarketplaceName) : Option (MakeOrderResponse O N) :=
  rs.find? fun r => r.marketplaceName == m

/-- One element of the facade `getOrders` result list (part_010 lines
165-169): a marketplace order tagged with its name and normalized form. -/
structure GetOrdersEntry (O N : Type) where
  marketplaceName : MarketplaceName
  marketplaceOrder : O
  normalizedOrder : N
deriving DecidableEq, Repr

/-- The joint await of the per-adapter `getOrders` calls: succeed with every
adapter's tagged order list, or fail as soon as one adapter rejects (there is
no `try`/`catch` in `Gomu.getOrders`, so `Promise.all` rejects; we model the
rejection with the error of the first failing adapter in registry order). -/
def collectGetOrders {O N R : Type} (p : Option GetOrdersParams) :
    List (MarketplaceName × Adapter O N R) →
      Except JsThrown (List (List (GetOrdersEntry O N)))
  | [] => Except.ok []
  | e :: rest =>
    match e.2.getOrdersResult p with
    | Except.error err => Except.error err
    | Except.ok orders =>
      match collectGetOrders p rest with
      | Except.error err => Except.error err
      | Except.ok results =>
        Except.ok
          ((orders.map fun o => GetOrdersEntry.mk e.1 o (e.2.getNormalizedOrder o))
            :: results)

/-- `Gomu.getOrders` (part_010 lines 158-176): jointly await every registered
adapter's `getOrders` and flatten the tagged per-adapter lists. -/
def gomuGetOrders {O N R : Type} (g : Registry O N R)
    (p : Option GetOrdersParams) : Except JsThrown (List (GetOrdersEntry O N)) :=
  match collectGetOrders p (registryEntries g) with
  | Except.error err => Except.error err
  | Except.ok results => Except.ok results.flatten

/-- An order value handed back to `takeOrder`/`cancelOrder`. The static type
requires `marketplaceOrder`, but the facade never checks it (the accesses are
under `@ts-ignore`), so we model the payload as optional to express the
"no successful data payload" runtime case. -/
structure FacadeOrder (O : Type) where
  marketplaceName : MarketplaceName
  marketplaceOrder : Option O := none
deriving DecidableEq, Repr

/-- `Gomu.takeOrder` (part_010 lines 178-191): look the adapter up by name,
throw the lookup error when absent, otherwise delegate and tag the result. -/
def gomuTakeOrder {O N R : Type} (g : Registry O N R) (order : FacadeOrder O) :
    Except JsThrown (MarketplaceName × R) :=
  match lookupMarketplace g order.marketplaceName with
  | none =>
    Except.error (JsThrown.jsError
      ("unknown marketplace: " ++ order.marketplaceName.toNameString ++ " order"))
  | some marketplace =>
    match marketplace.takeOrderResult order.marketplaceOrder with
    | Except.ok r => Except.ok (order.marketplaceName, r)
    | Except.error e => Except.error e

/-- `Gomu.cancelOrder` (part_010 lines 193-208), symmetric to `takeOrder`. -/
def gomuCancelOrder {O N R : Type} (g : Registry O N R) (order : FacadeOrder O) :
    Except JsThrown (MarketplaceName × R) :=
  match lookupMarketplace g order.marketplaceName with
  | none =>
    Except.error (JsThrown.jsError
      ("unknown marketplace: " ++ order.marketplaceName.toNameString ++ " order"))
  | some marketplace =>
    match marketplace.cancelOrderResult order.marketplaceOrder with
    | Except.ok r => Except.ok (order.marketplaceName, r)
    | Except.error e => Except.error e

/-! ### Facade construction (part_010 lines 68-95) -/

/-- `Opensea.supportsChainId` via `openseaSupportedChainIds = [1, 4]`
(unnamed/part_013). -/
def openseaSupportedChainIds : List Int := [1, 4]

/-- Static chain support check of the Opensea adapter. -/
def openseaSupportsChainId (chainId : Int) : Bool :=
  openseaSupportedChainIds.contains chainId

/-- `Trader.supportsChainId` returning `[1, 3].includes(chainId)`
(packages/sdk/src/marketplaces/Trader.ts line 57). -/
def traderSupportedChainIds : List Int := [1, 3]

/-- Static chain support check of the Trader adapter. -/
def traderSupportsChainId (chainId : Int) : Bool :=
  traderSupportedChainIds.contains chainId

/-- The Gomu constructor (part_010 lines 68-95), abstracted over the two
static chain predicates and the two adapter constructors. Each guarded
`new` is attempted in source order (opensea first); a constructor throw is
not caught, so it propagates and construction fails. -/
def gomuConstruct {O N R : Type} (chainId : Int) (sOpensea sTrader : Int → Bool)
    (openseaCtor traderCtor : Except JsThrown (Adapter O N R)) :
    Except JsThrown (Registry O N R) := do
  let o ←
    if sOpensea chainId then do
      let a ← openseaCtor
      pure (some a)
    else
      pure none
  let t ←
    if sTrader chainId then do
      let a ← traderCtor
      pure (some a)
    else
      pure none
  pure ⟨o, t⟩

/-- `getTraderxyzSdk` (packages/sdk/src/index.ts lines 55-66) of the
CommerceSdk facade: try the constructor at the requested chain id; on a throw,
record the error and construct a fallback instance at chain id 1 instead
(whose own throw, if any, is not caught). -/
def getTraderxyzSdk {S : Type} (ctor : Int → Except JsThrown S) (chainId : Int) :
    Except JsThrown (S × Option JsThrown) :=
  match ctor chainId with
  | Except.ok sdk => Except.ok (sdk, none)
  | Except.error e =>
    match ctor 1 with
    | Except.ok sdk => Except.ok (sdk, some e)
    | Except.error e2 => Except.error e2

/-! ### The Trader adapter's makeOrder with fees (unnamed/part_014) -/

/-- `SwappableAssetV4` of the nft-swap-sdk, as produced by
`getSwappableAssetV4`: ERC20 keeps only an amount, ERC721 only a token id,
ERC1155 both. Amounts go through `.toString()`, modelled as the `Int` kept
in a `JsNum`. -/
structure SwappableAssetV4 where
  tokenAddress : String
  tokenId : Option String := none
  type : AssetType
  amount : JsNum := none
deriving DecidableEq, Repr

/-- `getSwappableAssetV4` (part_014 lines 241-266): convert an `Asset`,
throwing on an unrecognized type tag. -/
def getSwappableAssetV4 (asset : Asset) : Except String SwappableAssetV4 :=
  match asset.type with
  | AssetType.erc20 =>
    Except.ok ⟨asset.contractAddress, none, AssetType.erc20, asset.amount⟩
  | AssetType.erc721 =>
    Except.ok ⟨asset.contractAddress, asset.tokenId, AssetType.erc721, none⟩
  | AssetType.erc1155 =>
    Except.ok ⟨asset.contractAddress, asset.tokenId, AssetType.erc1155, asset.amount⟩
  | AssetType.unknownType =>
    Except.error "unknown asset type: Unknown"

/-- The order assembled by `Trader.makeOrder` and handed to
`nftSwapSdk.buildOrder` (part_014 lines 115-125): the two converted assets
(with the ERC20 amount already reduced by the fee total), the maker address,
the optional taker and expiry, and the computed flat-amount fees. -/
structure TraderBuiltOrder where
  makerAsset : SwappableAssetV4
  takerAsset : SwappableAssetV4
  maker : String
  taker : Option String
  expiry : Option Int
  fees : List BigNumberFee
deriving DecidableEq, Repr

/-- Errors thrown out of `Trader.makeOrder` before the order is built. -/
inductive TraderMakeOrderError where
  | validation (message : String)
  | unknownAssetType (message : String)
  | feeCalc (e : FeeCalcError)
deriving DecidableEq, Repr

/-- `Trader.makeOrder` (part_014 lines 72-128), modelled up to the
`buildOrder` call (signing and posting are external side effects on the
built order): run the shared validators, convert both first assets, read the
ERC20 side's amount, run `calculateFees`, subtract the fee total from the
ERC20 amount when the total is `gte(0)`, and build the order. -/
def traderMakeOrder (address : String) (p : AdapterMakeOrderParams) :
    Except TraderMakeOrderError TraderBuiltOrder :=
  match validateMakeOrderAssets p.makerAssets p.takerAssets with
  | some msg => Except.error (TraderMakeOrderError.validation msg)
  | none =>
    match p.makerAssets, p.takerAssets with
    | makerAsset0 :: _, takerAsset0 :: _ =>
      (match getSwappableAssetV4 makerAsset0, getSwappableAssetV4 takerAsset0 with
       | Except.error m, _ => Except.error (TraderMakeOrderError.unknownAssetType m)
       | _, Except.error m => Except.error (TraderMakeOrderError.unknownAssetType m)
       | Except.ok makerSw, Except.ok takerSw =>
         -- const { amount } = makerAsset.type === "ERC20" ? makerAsset : takerAsset
         let amount := (if makerSw.type = AssetType.erc20 then makerSw else takerSw).amount
         let fees := p.marketplacesConfig.map fun c => c.trader.fees
         match calculateFees fees amount with
         | Except.error e => Except.error (TraderMakeOrderError.feeCalc e)
         | Except.ok (flatAmountFees, totalFeesAmount) =>
           let adjust := jsGe totalFeesAmount (some 0)
           let amountWithoutFees := jsSub amount totalFeesAmount
           let makerSw2 :=
             if adjust ∧ makerSw.type = AssetType.erc20 then
               { makerSw with amount := amountWithoutFees }
             else makerSw
           let takerSw2 :=
             if adjust ∧ takerSw.type = AssetType.erc20 then
               { takerSw with amount := amountWithoutFees }
             else takerSw
           Except.ok
             { makerAsset := makerSw2
               takerAsset := takerSw2
               maker := address
               taker := p.taker
               expiry := p.expirationTime
               fees := flatAmountFees })
    | _, _ => Except.error (TraderMakeOrderError.validation "unreachable")

/-! ### Order normalizers -/

/-- The canonical normalized order (types.ts `NormalizedOrder<OriginalOrder>`). -/
structure NormalizedOrder (O : Type) where
  id : String
  makerAssets : List Asset
  takerAssets : List Asset
  maker : String
  originalOrder : O
deriving DecidableEq, Repr

/-- The signed nft-swap order nested inside a posted Trader order; only the
fields the normalizer reads (`nonce`, `maker`) are modelled. -/
structure SignedNftOrderV4 where
  nonce : String
  maker : String
deriving DecidableEq, Repr

/-- A Trader marketplace-native order (`PostOrderResponsePayload`): the fields
read by `normalizeOrder`/`determineNftAsset` in
packages/sdk/src/marketplaces/Trader.ts lines 492-536. Numeric strings are
parsed with `BigInt`, modelled as `Int`. -/
structure TraderOriginalOrder where
  order : SignedNftOrderV4
  sellOrBuyNft : String
  erc20Token : String
  erc20TokenAmount : Int
  nftToken : String
  nftTokenId : String
  nftType : String
  nftTokenAmount : Int
deriving DecidableEq, Repr

/-- `determineNftAsset` for Trader (Trader.ts lines 512-536): ERC721 and
ERC1155 map to their tagged assets, anything else to `Unknown`. -/
def traderDetermineNftAsset (o : TraderOriginalOrder) : Asset :=
  if o.nftType = "ERC721" then
    ⟨o.nftToken, some o.nftTokenId, AssetType.erc721, none⟩
  else if o.nftType = "ERC1155" then
    ⟨o.nftToken, some o.nftTokenId, AssetType.erc1155, some o.nftTokenAmount⟩
  else
    ⟨o.nftToken, some o.nftTokenId, AssetType.unknownType, some o.nftTokenAmount⟩

/-- The ERC20 leg built by the Trader normalizer from `erc20Token` and
`BigInt(erc20TokenAmount)`. -/
def traderErc20Leg (o : TraderOriginalOrder) : Asset :=
  ⟨o.erc20Token, none, AssetType.erc20, some o.erc20TokenAmount⟩

/-- `normalizeOrder` for Trader (Trader.ts lines 492-510): classify the side
from `sellOrBuyNft === "sell"`, place the NFT leg in `makerAssets` and the
ERC20 leg in `takerAssets` for a sell and the reverse otherwise, and keep the
native payload under `originalOrder`. -/
def traderNormalizeOrder (o : TraderOriginalOrder) :
    NormalizedOrder TraderOriginalOrder :=
  let isSellOrder := o.sellOrBuyNft == "sell"
  let nftAsset := traderDetermineNftAsset o
  let erc20Asset := traderErc20Leg o
  { id := o.order.nonce
    makerAssets := if isSellOrder then [nftAsset] else [erc20Asset]
    takerAssets := if isSellOrder then [erc20Asset] else [nftAsset]
    maker := o.order.maker
    originalOrder := o }

/-- A Seaport offer/consideration item, with the fields read by the Opensea
normalizer. `itemType` follows the `ItemType` enum (ERC20 = 1, ERC721 = 2,
ERC1155 = 3, ERC721_WITH_CRITERIA = 4, ERC1155_WITH_CRITERIA = 5). -/
structure SeaportItem where
  token : String
  identifierOrCriteria : String
  itemType : Int
  endAmount : Int
deriving DecidableEq, Repr

/-- An Opensea `OrderV2` flattened to the fields read by `normalizeOrder`
(packages/sdk/src/index.ts lines 640-661): the side flag (`"ask"` for sell,
`"bid"` for buy), the root-level `currentPrice`, the `protocolData.parameters`
offer/consideration lists and offerer, and the order hash. -/
structure OpenseaOriginalOrder where
  side : String
  currentPrice : Int
  orderHash : String
  offerer : String
  offer : List SeaportItem
  consideration : List SeaportItem
deriving DecidableEq, Repr

/-- `determineNftAsset` for Opensea (index.ts lines 688-732). -/
def openseaDetermineNftAsset (it : SeaportItem) : Asset :=
  if it.itemType = 2 ∨ it.itemType = 4 then
    ⟨it.token, some it.identifierOrCriteria, AssetType.erc721, none⟩
  else if it.itemType = 3 ∨ it.itemType = 5 then
    ⟨it.token, some it.identifierOrCriteria, AssetType.erc1155, some it.endAmount⟩
  else
    ⟨it.token, some it.identifierOrCriteria, AssetType.unknownType, some it.endAmount⟩

/-- `normalizeOrder` for Opensea (index.ts lines 640-661): classify the side
from `order.side === "ask"`; the ERC20 leg takes its token from the first
consideration (sell) or offer (buy) item and its amount from `currentPrice`;
the NFT legs are the non-ERC20 items of the other list. Returns `none` when
the indexed list is empty, where the source would throw a `TypeError` reading
`[0].token` of `undefined`. -/
def openseaNormalizeOrder (o : OpenseaOriginalOrder) :
    Option (NormalizedOrder OpenseaOriginalOrder) :=
  let isSellOrder := o.side == "ask"
  match (if isSellOrder then o.consideration else o.offer).head? with
  | none => none
  | some first =>
    let erc20Asset : Asset := ⟨first.token, none, AssetType.erc20, some o.currentPrice⟩
    let nftAssets :=
      ((if isSellOrder then o.offer else o.consideration).filter
        fun it => it.itemType ≠ 1).map openseaDetermineNftAsset
    some
      { id := o.orderHash
        makerAssets := if isSellOrder then nftAssets else [erc20Asset]
        takerAssets := if isSellOrder then [erc20Asset] else nftAssets
        maker := o.offerer
        originalOrder := o }

/-! ### The shared validator preamble as an adapter wrapper -/

/-- Wrap an adapter's `makeOrder` behaviour with the shared validator
preamble: every concrete adapter's `makeOrder` (Trader.makeOrder,
Opensea.makeOrder) first runs `validateMakeOrderAssets` and throws its
`Error` before doing anything marketplace-specific. -/
def withSharedValidators {O N R : Type} (a : Adapter O N R) : Adapter O N R :=
  { a with
    makeOrderResult := fun p =>
      match validateMakeOrderAssets p.makerAssets p.takerAssets with
      | some msg => Except.error (JsThrown.jsError msg)
      | none => a.makeOrderResult p }

/-! ### Concrete fixtures used by witnesses and counterexamples -/

/-- An ERC721 asset used in concrete scenarios. -/
def erc721AssetEx : Asset := ⟨"0xNFT", some "42", AssetType.erc721, none⟩

/-- An ERC20 asset with amount 1000000 used in concrete scenarios. -/
def erc20AssetEx : Asset := ⟨"0xWETH", none, AssetType.erc20, some 1000000⟩

/-- Structurally valid `MakeOrderParams`: one ERC721 maker asset against one
ERC20 taker asset, no marketplace selection. -/
def validParamsEx : MakeOrderParams :=
  { makerAssets := [erc721AssetEx], takerAssets := [erc20AssetEx] }

/-- Structurally invalid `MakeOrderParams`: empty maker asset list. -/
def emptyMakerParamsEx : MakeOrderParams :=
  { makerAssets := [], takerAssets := [erc20AssetEx] }

/-- An adapter whose every operation resolves. -/
def adapterOkEx : Adapter String String Nat :=
  { makeOrderResult := fun _ => Except.ok "orderA"
    getNormalizedOrder := fun o => "normalized:" ++ o
    getOrdersResult := fun _ => Except.ok ["g1", "g2"]
    takeOrderResult := fun _ => Except.ok 7
    cancelOrderResult := fun _ => Except.ok 9 }

/-- The thrown `Error("rate limited")` of the spec's end-to-end scenario. -/
def rateLimitedThrown : JsThrown := JsThrown.jsError "rate limited"

/-- An adapter whose every operation rejects with `Error("rate limited")`. -/
def adapterFailEx : Adapter String String Nat :=
  { makeOrderResult := fun _ => Except.error rateLimitedThrown
    getNormalizedOrder := fun o => "normalized:" ++ o
    getOrdersResult := fun _ => Except.error rateLimitedThrown
    takeOrderResult := fun _ => Except.error rateLimitedThrown
    cancelOrderResult := fun _ => Except.error rateLimitedThrown }

/-- A thrown value that is not an `Error` instance but exposes a `message`
property; its string coercion is the generic object one. -/
def objectWithMessageThrown : JsThrown := ⟨false, some "boom", "[object Object]"⟩

/-- An adapter whose `makeOrder` throws `objectWithMessageThrown`. -/
def adapterThrowsObjectEx : Adapter String String Nat :=
  { adapterOkEx with makeOrderResult := fun _ => Except.error objectWithMessageThrown }

/-- A registry with a resolving opensea adapter and a rejecting trader
adapter, as in the spec's two-adapter end-to-end scenario. -/
def facadeRegistryEx : Registry String String Nat :=
  ⟨some adapterOkEx, some adapterFailEx⟩

/-- A thrown value standing for a Trader adapter constructor failure. -/
def boomThrown : JsThrown := JsThrown.jsError "trader ctor boom"

/-- Trader adapter `makeOrder` parameters of the fee end-to-end scenario:
ERC721 maker leg, ERC20 taker leg of `"1000000"`, fee configuration
`[{recipient: "0xR1", basisPoints: 250}]`. -/
def traderFeeParamsEx : AdapterMakeOrderParams :=
  { makerAssets := [erc721AssetEx]
    takerAssets := [erc20AssetEx]
    marketplacesConfig := some ⟨⟨[Fee.basisPoints "0xR1" 250]⟩⟩ }

/-- A Trader-native sell order fixture. -/
def traderSellOrderEx : TraderOriginalOrder :=
  ⟨⟨"7", "0xMAKER"⟩, "sell", "0xWETH", 1000, "0xNFT", "42", "ERC721", 1⟩

/-- An Opensea-native ask (sell) order fixture: one ERC721 offer item, one
ERC20 consideration item. -/
def openseaAskOrderEx : OpenseaOriginalOrder :=
  ⟨"ask", 5000, "0xHASH", "0xOFFERER", [⟨"0xNFT", "42", 2, 1⟩], [⟨"0xWETH", "0", 1, 5000⟩]⟩

/-- The normalized form of `openseaAskOrderEx`. -/
def openseaAskNormalizedEx : NormalizedOrder OpenseaOriginalOrder :=
  { id := "0xHASH"
    makerAssets := [⟨"0xNFT", some "42", AssetType.erc721, none⟩]
    takerAssets := [⟨"0xWETH", none, AssetType.erc20, some 5000⟩]
    maker := "0xOFFERER"
    originalOrder := openseaAskOrderEx }

/-! ### Helper lemmas -/

/-- The facade's formatted message of a thrown `Error(msg)` is `msg`. -/
theorem formatCaughtError_jsError (msg : String) :
    formatCaughtError (JsThrown.jsError msg) = msg := rfl

/-- A `makeOrder` response entry is tagged with the marketplace it was
computed from. -/
theorem makeOrderResponseFor_marketplaceName {O N R : Type} (p : MakeOrderParams)
    (e : MarketplaceName × Adapter O N R) :
    (makeOrderResponseFor p e).marketplaceName = e.1 := by
  unfold makeOrderResponseFor
  cases e.2.makeOrderResult p.toAdapterMakeOrderParams <;> rfl

/-- The entry of `Gomu.makeOrder` for a registered, selected marketplace is
the one computed from that marketplace's own adapter. -/
theorem findResponse_gomuMakeOrder {O N R : Type} (g : Registry O N R)
    (p : MakeOrderParams) (m : MarketplaceName) (a : Adapter O N R)
    (hreg : lookupMarketplace g m = some a)
    (hsel : isMarketplaceSelected p.marketplaces m = true) :
    findResponse (gomuMakeOrder g p) m = some (makeOrderResponseFor p (m, a)) := by
  cases m with
  | opensea =>
    have ho : g.opensea = some a := hreg
    simp [findResponse, gomuMakeOrder, selectedEntries, registryEntries, ho, hsel,
      List.find?, makeOrderResponseFor_marketplaceName]
  | trader =>
    have ht : g.trader = some a := hreg
    cases hop : g.opensea with
    | none =>
      simp [findResponse, gomuMakeOrder, selectedEntries, registryEntries, ht, hop, hsel,
        List.find?, makeOrderResponseFor_marketplaceName]
    | some b =>
      cases hselo : isMarketplaceSelected p.marketplaces MarketplaceName.opensea with
      | false =>
        simp [findResponse, gomuMakeOrder, selectedEntries, registryEntries, ht, hop,
          hsel, hselo, List.find?, makeOrderResponseFor_marketplaceName]
      | true =>
        simp [findResponse, gomuMakeOrder, selectedEntries, registryEntries, ht, hop,
          hsel, hselo, List.find?, makeOrderResponseFor_marketplaceName]

/-- A fee entry that falls through both branches of the loop body leaves the
`(flatAmountFees, totalFeesAmount)` state unchanged and raises no error. -/
theorem processFee_skip_nonpositive (amount : JsNum) (st : List BigNumberFee × JsNum)
    (fee : Fee) (h : feeIsNonPositive fee = true) :
    processFee amount st fee = Except.ok st := by
  cases fee with
  | flatAmount r a =>
    simp [feeIsNonPositive] at h
    have hneg : ¬ a > 0 := by omega
    simp [processFee, hneg]
  | basisPoints r bp =>
    simp [feeIsNonPositive] at h
    have hneg : ¬ bp > 0 := by omega
    simp [processFee, hneg]

/-- Folding the loop body over a list of entirely non-positive fee entries
returns the initial state unchanged. -/
theorem foldlM_processFee_skip (amount : JsNum) (fs : List Fee)
    (h : ∀ f ∈ fs, feeIsNonPositive f = true) (st : List BigNumberFee × JsNum) :
    fs.foldlM (processFee amount) st = Except.ok st := by
  induction fs generalizing st with
  | nil => rfl
  | cons f rest ih =>
    have hf : feeIsNonPositive f = true := h f (List.mem_cons_self f rest)
    have hrest : ∀ x ∈ rest, feeIsNonPositive x = true :=
      fun x hx => h x (List.mem_cons_of_mem f hx)
    simp [List.foldlM, processFee_skip_nonpositive amount st f hf]
    exact ih hrest st

/-- Claim C3: the fee calculator is claimed to contribute
`floor(B * basisPoints / 10000)` per basis-point fee, reject flat fees and
basis points at their bounds, and return a total strictly below `B`. The code
cannot do any of this for a non-empty fee list: its loop bound `i <= fees.length`
makes the final iteration read `fees[fees.length] = undefined` and throw a
`TypeError` from `"amount" in fee`. First conjunct: the spec's own example
(250 basis points of 1000000) throws instead of returning the 25000 schedule.
Second conjunct: the loop state just before the overrun held exactly that
intended schedule. Third conjunct: even the per-entry computation is
`toFixed(0)` half-up rounding, not floor — 100 basis points of 199 gives 2,
where the claimed floor is 1. -/
theorem calculateFees_overruns_fee_list :
    calculateFees (some [Fee.basisPoints "0xR1" 250]) (some 1000000)
        = Except.error FeeCalcError.undefinedFeeTypeError
    ∧ [Fee.basisPoints "0xR1" 250].foldlM (processFee (some 1000000)) ([], some 0)
        = Except.ok ([⟨"0xR1", some 25000⟩], some 25000)
    ∧ processFee (some 199) ([], some 0) (Fee.basisPoints "0xR1" 100)
        = Except.ok ([⟨"0xR1", some 2⟩], some 2) :=
  ⟨rfl, rfl, rfl⟩

/-- Claim C4: calling the Trader adapter's `makeOrder` with fee configuration
`[{recipient: "0xR1", basisPoints: 250}]` and an ERC20 leg of `"1000000"` is
claimed to produce a fee schedule `["25000"]` with total `"25000"` and an
embedded ERC20 amount of `"975000"`. Instead `calculateFees` throws its
out-of-bounds `TypeError` and `makeOrder` rejects before any order is
built. -/
theorem trader_makeOrder_fee_scenario_throws :
    traderMakeOrder "0xMAKER" traderFeeParamsEx
      = Except.error (TraderMakeOrderError.feeCalc FeeCalcError.undefinedFeeTypeError) := rfl

/-- Counterexample to claim C10: a fee entry with a non-positive magnitude is
claimed to be silently skipped, with the remaining schedule still returned.
In fact any non-empty fee list — including one whose single entry has
`amount: 0` — makes `calculateFees` throw the out-of-bounds `TypeError`, so
nothing is returned. -/
theorem calculateFees_nonpositive_entry_counterexample :
    calculateFees (some [Fee.flatAmount "0xR1" 0]) (some 100)
      = Except.error FeeCalcError.undefinedFeeTypeError := rfl

/-- Claim C10 (amended): an undefined or empty fee list yields an empty
schedule and a zero total without error; a fee entry whose amount or
basisPoints is not strictly positive is skipped by the loop body — neither
validated against the base amount nor added to the schedule or total — but
every non-empty fee list subsequently throws the out-of-bounds `TypeError`,
so no schedule is returned for it. -/
theorem calculateFees_empty_and_nonpositive_fees :
    (∀ amount : JsNum, calculateFees none amount = Except.ok ([], some 0))
    ∧ (∀ amount : JsNum, calculateFees (some []) amount = Except.ok ([], some 0))
    ∧ (∀ (amount : JsNum) (st : List BigNumberFee × JsNum) (fee : Fee),
        feeIsNonPositive fee = true → processFee amount st fee = Except.ok st)
    ∧ (∀ (amount : JsNum) (fs : List Fee), fs ≠ [] →
        (∀ f ∈ fs, feeIsNonPositive f = true) →
        calculateFees (some fs) amount = Except.error FeeCalcError.undefinedFeeTypeError) := by
  refine ⟨fun _ => rfl, fun _ => rfl, processFee_skip_nonpositive, ?_⟩
  intro amount fs hne h
  match fs with
  | [] => exact absurd rfl hne
  | f :: rest =>
    simp [calculateFees, foldlM_processFee_skip amount (f :: rest) h]
    rfl

/-- Witness for claim C10's theorem: a single zero-basis-points entry hits the
non-empty branch and throws the out-of-bounds `TypeError`. -/
theorem calculateFees_empty_and_nonpositive_fees_witness :
    calculateFees (some [Fee.basisPoints "0xR2" 0]) (some 500)
      = Except.error FeeCalcError.undefinedFeeTypeError :=
  calculateFees_empty_and_nonpositive_fees.2.2.2 (some 500) [Fee.basisPoints "0xR2" 0]
    (by decide) (by decide)

/-- Claim C1: for every `MakeOrderParams` and every registry of selected
adapters, the facade `makeOrder` settles (it is a total function into a
response list): it produces exactly one entry per selected registered adapter
(same count, same tags in registry order), and the entry of each selected
registered marketplace is computed from that adapter's own outcome alone —
a resolving adapter contributes a success entry tagged with its name, a
rejecting adapter contributes an error entry tagged with its name, and the
entry does not depend on any other adapter's behaviour. -/
theorem gomu_makeOrder_one_entry_per_selected_adapter {O N R : Type}
    (g : Registry O N R) (p : MakeOrderParams) (m : MarketplaceName)
    (a : Adapter O N R)
    (hreg : lookupMarketplace g m = some a)
    (hsel : isMarketplaceSelected p.marketplaces m = true) :
    (gomuMakeOrder g p).length = (selectedEntries g p.marketplaces).length
    ∧ (gomuMakeOrder g p).map MakeOrderResponse.marketplaceName
        = (selectedEntries g p.marketplaces).map Prod.fst
    ∧ findResponse (gomuMakeOrder g p) m
        = some (match a.makeOrderResult p.toAdapterMakeOrderParams with
                | Except.ok o =>
                  MakeOrderResponse.success m o (a.getNormalizedOrder o)
                | Except.error e =>
                  MakeOrderResponse.failure m (formatCaughtError e)) := by
  refine ⟨?_, ?_, ?_⟩
  · simp [gomuMakeOrder]
  · simp only [gomuMakeOrder, List.map_map]
    exact List.map_congr_left fun e _ => makeOrderResponseFor_marketplaceName p e
  · have h := findResponse_gomuMakeOrder g p m a hreg hsel
    rw [h]
    unfold makeOrderResponseFor
    rfl

/-- Witness for claim C1's theorem, at the spec's two-adapter scenario: the
opensea adapter resolves, the trader adapter rejects with
`Error("rate limited")`, and the trader entry is the tagged error entry. -/
theorem gomu_makeOrder_one_entry_per_selected_adapter_witness :
    findResponse (gomuMakeOrder facadeRegistryEx validParamsEx) MarketplaceName.trader
      = some (MakeOrderResponse.failure MarketplaceName.trader "rate limited") :=
  (gomu_makeOrder_one_entry_per_selected_adapter facadeRegistryEx validParamsEx
    MarketplaceName.trader adapterFailEx rfl rfl).2.2

/-- Counterexample to claim C2: the facade `makeOrder` does not reject
structurally invalid parameters with a single validation error before
invoking adapters. The shared validators run inside each adapter's
`makeOrder`, inside the facade's per-adapter `try`/`catch`, so with two
registered adapters and an empty maker asset list the call resolves with two
validation-error entries instead of rejecting with one error. -/
theorem facade_resolves_with_validation_errors_counterexample :
    gomuMakeOrder
        (Registry.mk (some (withSharedValidators adapterOkEx))
          (some (withSharedValidators adapterOkEx))) emptyMakerParamsEx
      = [MakeOrderResponse.failure MarketplaceName.opensea "maker assets cannot be empty",
         MakeOrderResponse.failure MarketplaceName.trader "maker assets cannot be empty"]
    ∧ ([MakeOrderResponse.failure MarketplaceName.opensea "maker assets cannot be empty",
        MakeOrderResponse.failure MarketplaceName.trader "maker assets cannot be empty"] :
          List (MakeOrderResponse String String)).length
        ≠ 1 :=
  ⟨rfl, by decide⟩

/-- Claim C2 (amended): the shared validators run identically at the start of
each selected adapter's `makeOrder` — once per adapter, before anything
marketplace-specific — so for structurally invalid parameters the facade
resolves with one identical validation-error entry per selected registered
adapter (rather than rejecting once), and no adapter body is reached: the
result does not depend on the wrapped adapter behaviours `aO`, `aT`. -/
theorem facade_validation_error_per_selected_adapter {O N R : Type}
    (aO aT : Adapter O N R) (p : MakeOrderParams) (msg : String)
    (hval : validateMakeOrderAssets p.makerAssets p.takerAssets = some msg) :
    gomuMakeOrder
        (Registry.mk (some (withSharedValidators aO))
          (some (withSharedValidators aT))) p
      = ([MarketplaceName.opensea, MarketplaceName.trader].filter
          (fun m => isMarketplaceSelected p.marketplaces m)).map
          (fun m => MakeOrderResponse.failure m msg) := by
  have hmaker : p.toAdapterMakeOrderParams.makerAssets = p.makerAssets := rfl
  have htaker : p.toAdapterMakeOrderParams.takerAssets = p.takerAssets := rfl
  cases ho : isMarketplaceSelected p.marketplaces MarketplaceName.opensea <;>
    cases ht : isMarketplaceSelected p.marketplaces MarketplaceName.trader <;>
      simp [gomuMakeOrder, selectedEntries, registryEntries, ho, ht,
        makeOrderResponseFor, withSharedValidators, hmaker, htaker, hval,
        formatCaughtError_jsError]

/-- Witness for claim C2's theorem: empty maker assets with two registered
validating adapters and no selection. -/
theorem facade_validation_error_per_selected_adapter_witness :
    gomuMakeOrder
        (Registry.mk (some (withSharedValidators adapterOkEx))
          (some (withSharedValidators adapterOkEx))) emptyMakerParamsEx
      = ([MarketplaceName.opensea, MarketplaceName.trader].filter
          (fun m => isMarketplaceSelected emptyMakerParamsEx.marketplaces m)).map
          (fun m => MakeOrderResponse.failure m "maker assets cannot be empty") :=
  facade_validation_error_per_selected_adapter adapterOkEx adapterOkEx
    emptyMakerParamsEx "maker assets cannot be empty" rfl

/-- Counterexample to claim C5: with a rejecting opensea adapter and a
resolving trader adapter, the facade `getOrders` does not resolve with an
error entry plus the trader orders — there is no `try`/`catch` around the
adapter calls, so the whole call rejects with the adapter's error and the
trader adapter's orders appear in no response. -/
theorem getOrders_rejects_on_one_adapter_counterexample :
    gomuGetOrders (Registry.mk (some adapterFailEx) (some adapterOkEx))
        (none : Option GetOrdersParams)
      = Except.error rateLimitedThrown := rfl

/-- Claim C5 (amended): the facade `getOrders` is all-or-nothing over a
two-adapter registry. If the opensea adapter rejects, the call rejects with
its error; if the opensea adapter resolves and the trader adapter rejects,
the call rejects with the trader error; only when every adapter resolves does
the call resolve, with the per-adapter order lists flattened in registry
order, each order tagged with its originating marketplace name and paired
with its normalized form. -/
theorem gomu_getOrders_joint_await {O N R : Type} (aO aT : Adapter O N R)
    (p : Option GetOrdersParams) :
    (∀ e, aO.getOrdersResult p = Except.error e →
        gomuGetOrders (Registry.mk (some aO) (some aT)) p = Except.error e)
    ∧ (∀ lo e, aO.getOrdersResult p = Except.ok lo →
        aT.getOrdersResult p = Except.error e →
        gomuGetOrders (Registry.mk (some aO) (some aT)) p = Except.error e)
    ∧ (∀ lo lt, aO.getOrdersResult p = Except.ok lo →
        aT.getOrdersResult p = Except.ok lt →
        gomuGetOrders (Registry.mk (some aO) (some aT)) p
          = Except.ok
              (lo.map (fun o =>
                GetOrdersEntry.mk MarketplaceName.opensea o (aO.getNormalizedOrder o))
               ++ lt.map (fun o =>
                GetOrdersEntry.mk MarketplaceName.trader o (aT.getNormalizedOrder o)))) := by
  refine ⟨?_, ?_, ?_⟩
  · intro e he
    simp [gomuGetOrders, collectGetOrders, registryEntries, he]
  · intro lo e ho he
    simp [gomuGetOrders, collectGetOrders, registryEntries, ho, he]
  · intro lo lt ho ht
    simp [gomuGetOrders, collectGetOrders, registryEntries, ho, ht]

/-- Witness for claim C5's theorem: two resolving adapters, flattened and
tagged in registry order. -/
theorem gomu_getOrders_joint_await_witness :
    gomuGetOrders (Registry.mk (some adapterOkEx) (some adapterOkEx))
        (none : Option GetOrdersParams)
      = Except.ok
          ((["g1", "g2"].map (fun o =>
            GetOrdersEntry.mk MarketplaceName.opensea o (adapterOkEx.getNormalizedOrder o)))
           ++ (["g1", "g2"].map (fun o =>
            GetOrdersEntry.mk MarketplaceName.trader o (adapterOkEx.getNormalizedOrder o)))) :=
  (gomu_getOrders_joint_await adapterOkEx adapterOkEx none).2.2
    ["g1", "g2"] ["g1", "g2"] rfl rfl

/-- Counterexample to claim C6: a thrown value that exposes a `message`
property but is not an `Error` instance is claimed to contribute an error
object whose message is that property verbatim (with the value kept as
`cause`). The facade instead stores the plain string
`err instanceof Error ? err.message : String(err)`: the entry carries
`"[object Object]"`, not `"boom"`, and only a string — the thrown value is
not retained. -/
theorem error_message_property_ignored_counterexample :
    gomuMakeOrder (Registry.mk none (some adapterThrowsObjectEx)) validParamsEx
      = [MakeOrderResponse.failure MarketplaceName.trader "[object Object]"]
    ∧ "[object Object]" ≠ "boom" :=
  ⟨rfl, by decide⟩

/-- Claim C6 (amended): every value thrown by an adapter during the
`makeOrder` fan-out is converted to a plain string stored under `error`: an
`Error` instance contributes its own `message` property, any other thrown
value contributes its string coercion `String(value)` — its `message`
property, if any, is ignored — and the thrown value itself is not retained in
the response entry. -/
theorem thrown_values_become_plain_strings {O N R : Type}
    (g : Registry O N R) (p : MakeOrderParams) (m : MarketplaceName)
    (a : Adapter O N R) (v : JsThrown)
    (hreg : lookupMarketplace g m = some a)
    (hsel : isMarketplaceSelected p.marketplaces m = true)
    (hthrow : a.makeOrderResult p.toAdapterMakeOrderParams = Except.error v) :
    findResponse (gomuMakeOrder g p) m
        = some (MakeOrderResponse.failure m (formatCaughtError v))
    ∧ (v.isErrorInstance = true → formatCaughtError v = v.messageProp.getD "")
    ∧ (v.isErrorInstance = false → formatCaughtError v = v.stringCoercion) := by
  refine ⟨?_, ?_, ?_⟩
  · have h := findResponse_gomuMakeOrder g p m a hreg hsel
    rw [h]
    unfold makeOrderResponseFor
    rw [hthrow]
  · intro hinst
    simp [formatCaughtError, hinst]
  · intro hinst
    simp [formatCaughtError, hinst]

/-- Witness for claim C6's theorem: the registered trader adapter throws a
non-Error object whose string coercion is `"[object Object]"`. -/
theorem thrown_values_become_plain_strings_witness :
    findResponse
        (gomuMakeOrder (Registry.mk (some adapterOkEx) (some adapterThrowsObjectEx))
          validParamsEx) MarketplaceName.trader
      = some (MakeOrderResponse.failure MarketplaceName.trader
          (formatCaughtError objectWithMessageThrown))
    ∧ formatCaughtError objectWithMessageThrown = "[object Object]" :=
  have h := thrown_values_become_plain_strings
    (Registry.mk (some adapterOkEx) (some adapterThrowsObjectEx)) validParamsEx
    MarketplaceName.trader adapterThrowsObjectEx objectWithMessageThrown rfl rfl rfl
  ⟨h.1, h.2.2 rfl⟩

/-- Counterexample to claim C7: an order carrying no successful data payload
is claimed to make `takeOrder` throw a lookup error without invoking any
adapter. With the trader adapter registered, `takeOrder` on a payload-less
trader order performs no such check: it invokes the adapter (which here
resolves with receipt `7`) instead of throwing. -/
theorem takeOrder_without_payload_invokes_adapter_counterexample :
    gomuTakeOrder (Registry.mk none (some adapterOkEx))
        (FacadeOrder.mk MarketplaceName.trader none)
      = Except.ok (MarketplaceName.trader, 7) := rfl

/-- Claim C7 (amended): `takeOrder` and `cancelOrder` throw the lookup error
`unknown marketplace: <name> order` exactly when `order.marketplaceName` has
no registered adapter, without invoking anything; when an adapter is
registered, the call is delegated to it unconditionally — the order's payload
is forwarded as-is, with no check that a successful `data`/`marketplaceOrder`
payload is present. -/
theorem take_cancel_lookup_and_delegate {O N R : Type} (g : Registry O N R)
    (order : FacadeOrder O) :
    (lookupMarketplace g order.marketplaceName = none →
        gomuTakeOrder g order
          = Except.error (JsThrown.jsError
              ("unknown marketplace: " ++ order.marketplaceName.toNameString ++ " order"))
        ∧ gomuCancelOrder g order
          = Except.error (JsThrown.jsError
              ("unknown marketplace: " ++ order.marketplaceName.toNameString ++ " order")))
    ∧ (∀ a r, lookupMarketplace g order.marketplaceName = some a →
        a.takeOrderResult order.marketplaceOrder = Except.ok r →
        gomuTakeOrder g order = Except.ok (order.marketplaceName, r))
    ∧ (∀ a r, lookupMarketplace g order.marketplaceName = some a →
        a.cancelOrderResult order.marketplaceOrder = Except.ok r →
        gomuCancelOrder g order = Except.ok (order.marketplaceName, r)) := by
  refine ⟨?_, ?_, ?_⟩
  · intro hnone
    constructor
    · simp [gomuTakeOrder, hnone]
    · simp [gomuCancelOrder, hnone]
  · intro a r hsome hr
    simp [gomuTakeOrder, hsome, hr]
  · intro a r hsome hr
    simp [gomuCancelOrder, hsome, hr]

/-- Witness for claim C7's theorem: an order naming the unregistered opensea
marketplace yields the lookup error from both `takeOrder` and
`cancelOrder`. -/
theorem take_cancel_lookup_and_delegate_witness :
    gomuTakeOrder (Registry.mk none (some adapterOkEx))
        (FacadeOrder.mk MarketplaceName.opensea none)
      = Except.error (JsThrown.jsError "unknown marketplace: opensea order")
    ∧ gomuCancelOrder (Registry.mk none (some adapterOkEx))
        (FacadeOrder.mk MarketplaceName.opensea none)
      = Except.error (JsThrown.jsError "unknown marketplace: opensea order") :=
  (take_cancel_lookup_and_delegate (Registry.mk none (some adapterOkEx))
    (FacadeOrder.mk MarketplaceName.opensea none)).1 rfl

/-- Counterexample to claim C8: if an adapter's constructor throws, facade
construction is claimed to still succeed with that marketplace absent. On
chain id 1 both static predicates hold; with a throwing trader constructor
the Gomu constructor does not catch or record anything — construction itself
fails with the thrown error. -/
theorem constructor_throw_fails_construction_counterexample :
    gomuConstruct 1 openseaSupportsChainId traderSupportsChainId
        (Except.ok adapterOkEx) (Except.error boomThrown)
      = Except.error boomThrown := rfl

/-- Claim C8 (amended): Gomu facade construction registers each marketplace
adapter under its name if and only if its static `supportsChainId(chainId)`
returns true, the predicates being consulted only during construction (the
call-time operations are functions of the resulting registry alone); but an
adapter constructor throw is not caught — it propagates and facade
construction fails. Only the separate CommerceSdk helper `getTraderxyzSdk`
records a constructor error and continues, substituting a chain-id-1
fallback instance. -/
theorem construction_registers_iff_supported {O N R S : Type}
    (chainId : Int) (sOpensea sTrader : Int → Bool)
    (openseaCtor traderCtor : Except JsThrown (Adapter O N R)) :
    (∀ reg, gomuConstruct chainId sOpensea sTrader openseaCtor traderCtor
          = Except.ok reg →
        (reg.opensea.isSome ↔ sOpensea chainId = true)
        ∧ (reg.trader.isSome ↔ sTrader chainId = true))
    ∧ (∀ e, sOpensea chainId = true → openseaCtor = Except.error e →
        gomuConstruct chainId sOpensea sTrader openseaCtor traderCtor
          = Except.error e)
    ∧ (∀ a e, sTrader chainId = true → openseaCtor = Except.ok a →
        traderCtor = Except.error e →
        gomuConstruct chainId sOpensea sTrader openseaCtor traderCtor
          = Except.error e)
    ∧ (∀ e, sOpensea chainId = false → sTrader chainId = true →
        traderCtor = Except.error e →
        gomuConstruct chainId sOpensea sTrader openseaCtor traderCtor
          = Except.error e)
    ∧ (∀ (ctor : Int → Except JsThrown S) (c : Int) (sdk : S) (e : JsThrown),
        ctor c = Except.error e → ctor 1 = Except.ok sdk →
        getTraderxyzSdk ctor c = Except.ok (sdk, some e)) := by
  refine ⟨?_, ?_, ?_, ?_, ?_⟩
  · intro reg hok
    cases ho : sOpensea chainId <;> cases ht : sTrader chainId <;>
      cases hoc : openseaCtor <;> cases htc : traderCtor <;>
        simp [gomuConstruct, ho, ht, hoc, htc, Except.bind, Except.map, pure,
          Except.pure, Bind.bind, Functor.map] at hok <;>
          simp [← hok]
  · intro e ho hoc
    simp [gomuConstruct, ho, hoc, Except.bind, Bind.bind]
  · intro a e ht hoc htc
    cases ho : sOpensea chainId <;>
      simp [gomuConstruct, ho, ht, hoc, htc, Except.bind, Except.map, pure,
        Except.pure, Bind.bind, Functor.map]
  · intro e ho ht htc
    simp [gomuConstruct, ho, ht, htc, Except.bind, Except.map, pure,
      Except.pure, Bind.bind, Functor.map]
  · intro ctor c sdk e hc h1
    simp [getTraderxyzSdk, hc, h1]

/-- Witness for claim C8's theorem: on chain id 1 with both constructors
succeeding, both marketplaces are registered; the registration of each slot
matches its static predicate. -/
theorem construction_registers_iff_supported_witness :
    ((Registry.mk (some adapterOkEx) (some adapterOkEx)).opensea.isSome
        ↔ openseaSupportsChainId 1 = true)
    ∧ ((Registry.mk (some adapterOkEx) (some adapterOkEx)).trader.isSome
        ↔ traderSupportsChainId 1 = true) :=
  (construction_registers_iff_supported (S := Unit) 1 openseaSupportsChainId
    traderSupportsChainId (Except.ok adapterOkEx) (Except.ok adapterOkEx)).1
    (Registry.mk (some adapterOkEx) (some adapterOkEx)) rfl

/-- The Trader NFT-leg classifier never yields an ERC20 asset. -/
theorem traderDetermineNftAsset_not_erc20 (o : TraderOriginalOrder) :
    (traderDetermineNftAsset o).type ≠ AssetType.erc20 := by
  unfold traderDetermineNftAsset
  split
  · simp
  · split <;> simp

/-- The Opensea NFT-item classifier never yields an ERC20 asset. -/
theorem openseaDetermineNftAsset_not_erc20 (it : SeaportItem) :
    (openseaDetermineNftAsset it).type ≠ AssetType.erc20 := by
  unfold openseaDetermineNftAsset
  split
  · simp
  · split <;> simp

/-- Claim C9: both order normalizers classify the side from the marketplace's
side signal (`sellOrBuyNft === "sell"` for Trader, `side === "ask"` for
Opensea), place the non-fungible leg in `makerAssets` and the ERC20 leg in
`takerAssets` for a sell and the reverse for a buy, and keep the native order
payload unchanged under `originalOrder`. -/
theorem normalizers_classify_side_and_preserve_payload :
    (∀ o : TraderOriginalOrder,
      (traderNormalizeOrder o).originalOrder = o
      ∧ (traderNormalizeOrder o).maker = o.order.maker
      ∧ (o.sellOrBuyNft = "sell" →
          (traderNormalizeOrder o).makerAssets = [traderDetermineNftAsset o]
          ∧ (traderNormalizeOrder o).takerAssets = [traderErc20Leg o]
          ∧ ∀ a ∈ (traderNormalizeOrder o).makerAssets, a.type ≠ AssetType.erc20)
      ∧ (o.sellOrBuyNft = "buy" →
          (traderNormalizeOrder o).makerAssets = [traderErc20Leg o]
          ∧ (traderNormalizeOrder o).takerAssets = [traderDetermineNftAsset o]
          ∧ ∀ a ∈ (traderNormalizeOrder o).takerAssets, a.type ≠ AssetType.erc20))
    ∧ (∀ (o : OpenseaOriginalOrder) (n : NormalizedOrder OpenseaOriginalOrder),
        openseaNormalizeOrder o = some n →
        n.originalOrder = o
        ∧ n.maker = o.offerer
        ∧ n.id = o.orderHash
        ∧ (o.side = "ask" →
            (∃ first, o.consideration.head? = some first
              ∧ n.takerAssets = [⟨first.token, none, AssetType.erc20, some o.currentPrice⟩])
            ∧ ∀ a ∈ n.makerAssets, a.type ≠ AssetType.erc20)
        ∧ (o.side = "bid" →
            (∃ first, o.offer.head? = some first
              ∧ n.makerAssets = [⟨first.token, none, AssetType.erc20, some o.currentPrice⟩])
            ∧ ∀ a ∈ n.takerAssets, a.type ≠ AssetType.erc20)) := by
  constructor
  · intro o
    refine ⟨rfl, rfl, ?_, ?_⟩
    · intro hside
      have hb : (o.sellOrBuyNft == "sell") = true := by simp [hside]
      refine ⟨?_, ?_, ?_⟩
      · simp [traderNormalizeOrder, hb]
      · simp [traderNormalizeOrder, hb]
      · intro a ha
        simp [traderNormalizeOrder, hb] at ha
        rw [ha]
        exact traderDetermineNftAsset_not_erc20 o
    · intro hside
      have hb : (o.sellOrBuyNft == "sell") = false := by simp [hside]
      refine ⟨?_, ?_, ?_⟩
      · simp [traderNormalizeOrder, hb]
      · simp [traderNormalizeOrder, hb]
      · intro a ha
        simp [traderNormalizeOrder, hb] at ha
        rw [ha]
        exact traderDetermineNftAsset_not_erc20 o
  · intro o n h
    cases hb : (o.side == "ask") with
    | true =>
      simp [openseaNormalizeOrder, hb] at h
      cases hc : o.consideration.head? with
      | none => rw [hc] at h; exact absurd h (by simp)
      | some first =>
        rw [hc] at h
        simp only [Option.some.injEq] at h
        refine ⟨?_, ?_, ?_, ?_, ?_⟩
        · rw [← h]
        · rw [← h]
        · rw [← h]
        · intro _
          constructor
          · exact ⟨first, rfl, by rw [← h]⟩
          · intro a ha
            rw [← h] at ha
            simp only at ha
            obtain ⟨it, _, rfl⟩ := List.mem_map.mp ha
            exact openseaDetermineNftAsset_not_erc20 it
        · intro hside
          have : o.side = "ask" := by simpa using hb
          rw [hside] at this
          exact absurd this (by decide)
    | false =>
      simp [openseaNormalizeOrder, hb] at h
      cases hc : o.offer.head? with
      | none => rw [hc] at h; exact absurd h (by simp)
      | some first =>
        rw [hc] at h
        simp only [Option.some.injEq] at h
        refine ⟨?_, ?_, ?_, ?_, ?_⟩
        · rw [← h]
        · rw [← h]
        · rw [← h]
        · intro hside
          have : (o.side == "ask") = true := by simp [hside]
          rw [this] at hb
          exact absurd hb (by decide)
        · intro _
          constructor
          · exact ⟨first, rfl, by rw [← h]⟩
          · intro a ha
            rw [← h] at ha
            simp only at ha
            obtain ⟨it, _, rfl⟩ := List.mem_map.mp ha
            exact openseaDetermineNftAsset_not_erc20 it

/-- Witness for claim C9's theorem: a concrete Trader sell order and a
concrete Opensea ask order, with the side hypotheses and the normalizer
evaluation discharged on the concrete values. -/
theorem normalizers_classify_side_and_preserve_payload_witness :
    ((traderNormalizeOrder traderSellOrderEx).originalOrder = traderSellOrderEx
      ∧ (traderNormalizeOrder traderSellOrderEx).takerAssets = [traderErc20Leg traderSellOrderEx])
    ∧ (openseaAskNormalizedEx.originalOrder = openseaAskOrderEx
      ∧ openseaAskNormalizedEx.maker = openseaAskOrderEx.offerer) :=
  have ht := normalizers_classify_side_and_preserve_payload.1 traderSellOrderEx
  have hos := normalizers_classify_side_and_preserve_payload.2 openseaAskOrderEx
    openseaAskNormalizedEx rfl
  ⟨⟨ht.1, (ht.2.2.1 rfl).2.1⟩, ⟨hos.1, hos.2.1⟩⟩
